import Mathlib

/-!
# Verification of `app-store/generate_icon.py`

A shallow embedding of the icon generator script: the `create_icon` renderer
(Pillow drawing calls modelled as a list of draw operations applied to a pixel
buffer) and the `__main__` export loop (modelled as a list of file writes plus
the incrementally built manifest).  Machine numbers are modelled as `Int` / `ℚ`;
Python's `float` values occurring in the script (`83.5`, and products with it)
are exactly representable in binary floating point, so `ℚ` arithmetic agrees
with the script's float arithmetic on every value that actually occurs.
-/

/-- An RGB color, as the 8-bit triple Pillow parses a `#rrggbb` string into. -/
abbrev Color := ℕ × ℕ × ℕ

/-- `'#0f172a'` — the dark slate background color. -/
def bgColor : Color := (0x0f, 0x17, 0x2a)

/-- `accent = '#22d3a8'` — the teal/emerald accent color. -/
def accentColor : Color := (0x22, 0xd3, 0xa8)

/-- A Pillow raster image: mode, pixel dimensions, and the pixel buffer
(meaningful on `0 ≤ x < width`, `0 ≤ y < height`). -/
structure PILImage where
  mode : String
  width : Int
  height : Int
  pixels : Int → Int → Color

/-- `Image.new(mode, (w, h), color)`.  Pillow's `_check_size` raises
`ValueError("Width and height must be >= 0")` when a dimension is negative;
zero-sized images are allowed. -/
def imageNew (mode : String) (w h : Int) (color : Color) : Except String PILImage :=
  if w < 0 ∨ h < 0 then
    .error "Width and height must be >= 0"
  else
    .ok ⟨mode, w, h, fun _ _ => color⟩

/-- One `ImageDraw` call issued by `create_icon`: a thick line segment
(`draw.line`) or a filled ellipse given by its bounding box (`draw.ellipse`).
Coordinates are exact rationals (the script passes Python floats obtained by
scaling small integers, all exactly representable). -/
inductive DrawOp where
  | line (x1 y1 x2 y2 : ℚ) (width : Int) (fill : Color)
  | ellipse (x0 y0 x1 y1 : ℚ) (fill : Color)
deriving DecidableEq

/-- The fill color of a draw operation. -/
def DrawOp.fill : DrawOp → Color
  | .line _ _ _ _ _ c => c
  | .ellipse _ _ _ _ c => c

/-- `bonds` — the seven connecting line segments, in 1024-unit coordinates. -/
def bonds : List ((ℚ × ℚ) × (ℚ × ℚ)) :=
  [((380, 360), (450, 340)),
   ((574, 340), (644, 360)),
   ((340, 470), (380, 540)),
   ((684, 470), (644, 540)),
   ((460, 640), (500, 720)),
   ((564, 640), (524, 720)),
   ((470, 580), (554, 580))]

/-- `circles` — the six outer circles (center x, center y, radius), in
1024-unit coordinates. -/
def circles : List (ℚ × ℚ × ℚ) :=
  [(320, 400, 80),
   (512, 320, 80),
   (704, 400, 80),
   (400, 600, 80),
   (624, 600, 80),
   (512, 780, 80)]

/-- `inner_r = 32` — the unscaled inner ("nucleus") radius. -/
def inner_r : ℚ := 32

/-- `int(24 * s)` with `s = size / 1024`: Python `int()` truncates toward
zero; `24 * s ≥ 0` whenever `size ≥ 0`, and the script only truncates
non-negative values, so truncation is `⌊·⌋` there. -/
def pyTruncRat (q : ℚ) : Int :=
  if 0 ≤ q then ⌊q⌋ else -⌊-q⌋

/-- The ordered list of drawing calls `create_icon` issues for a given `size`:
first every bond line, then every outer circle, then every inner circle. -/
def createIconOps (size : Int) : List DrawOp :=
  let s : ℚ := (size : ℚ) / 1024
  let line_width : Int := pyTruncRat (24 * s)
  (bonds.map fun b =>
    DrawOp.line (b.1.1 * s) (b.1.2 * s) (b.2.1 * s) (b.2.2 * s) line_width accentColor)
  ++ (circles.map fun c =>
    DrawOp.ellipse ((c.1 - c.2.2) * s) ((c.2.1 - c.2.2) * s)
      ((c.1 + c.2.2) * s) ((c.2.1 + c.2.2) * s) accentColor)
  ++ (circles.map fun c =>
    DrawOp.ellipse ((c.1 - inner_r) * s) ((c.2.1 - inner_r) * s)
      ((c.1 + inner_r) * s) ((c.2.1 + inner_r) * s) bgColor)

/-- Squared euclidean distance from point `p` to the segment `a`–`b`
(clamped orthogonal projection). -/
def sqDistToSegment (px py ax ay bx _by : ℚ) : ℚ :=
  let dx := bx - ax
  let dy := _by - ay
  let len2 := dx * dx + dy * dy
  if len2 = 0 then (px - ax) ^ 2 + (py - ay) ^ 2
  else
    let t := max 0 (min 1 (((px - ax) * dx + (py - ay) * dy) / len2))
    (px - (ax + t * dx)) ^ 2 + (py - (ay + t * dy)) ^ 2

/-- Whether a draw operation covers the pixel at integer coordinates `(x, y)`.
Models Pillow's solid (non-anti-aliased) rasterization: a `width`-thick line
covers the pixels within `width / 2` of the segment, and a filled ellipse
covers the pixels inside the ellipse inscribed in its bounding box.  (The
exact boundary pixels Pillow's C rasterizer selects are not modelled more
finely; no verified property below depends on the precise region, only on
each operation writing its single solid fill color inside some region.) -/
def DrawOp.covers : DrawOp → Int → Int → Bool
  | .line x1 y1 x2 y2 w _, x, y =>
      decide (sqDistToSegment (x : ℚ) (y : ℚ) x1 y1 x2 y2 ≤ ((w : ℚ) / 2) ^ 2)
  | .ellipse x0 y0 x1 y1 _, x, y =>
      let cx := (x0 + x1) / 2
      let cy := (y0 + y1) / 2
      let rx := (x1 - x0) / 2
      let ry := (y1 - y0) / 2
      decide (ry ^ 2 * ((x : ℚ) - cx) ^ 2 + rx ^ 2 * ((y : ℚ) - cy) ^ 2 ≤ rx ^ 2 * ry ^ 2)

/-- Apply one draw operation to a pixel buffer: pixels in the covered region
take the operation's solid fill color, all others are unchanged. -/
def applyOp (px : Int → Int → Color) (op : DrawOp) : Int → Int → Color :=
  fun x y => if op.covers x y then op.fill else px x y

/-- The pixel buffer `create_icon(size)` returns: the background-filled canvas
with every draw call applied in program order. -/
def createIconPixels (size : Int) : Int → Int → Color :=
  (createIconOps size).foldl applyOp (fun _ _ => bgColor)

/-- The image `create_icon(size)` returns when `Image.new` does not raise. -/
def createIconImage (size : Int) : PILImage :=
  ⟨"RGB", size, size, createIconPixels size⟩

/-- `create_icon(size)`: allocate the RGB canvas (Pillow raises a `ValueError`
for a negative dimension — the function body itself contains no validation),
then issue the draw calls and return the image. -/
def create_icon (size : Int) : Except String PILImage :=
  (imageNew "RGB" size size bgColor).map fun img =>
    { img with pixels := (createIconOps size).foldl applyOp img.pixels }

/-!
## The export driver (`__main__`)
-/

/-- A Python number as it appears in the `ios_sizes` literal: the entries are
`int` literals except `83.5`, which is a `float` (exactly representable in
binary floating point, so carried as the exact rational `167/2`). -/
inductive PyNum where
  | int (n : Int)
  | float (q : ℚ)
deriving DecidableEq

/-- The numeric value of a Python number. -/
def PyNum.toRat : PyNum → ℚ
  | .int n => (n : ℚ)
  | .float q => q

/-- Python `==` on numbers compares numeric values (`20 == 20.0` is `True`);
this is the comparison `in` performs against the idiom lookup lists. -/
def PyNum.numEq (a b : PyNum) : Bool :=
  a.toRat = b.toRat

/-- `str()` of a number, as interpolated by the f-strings of the script:
`str` of an `int` is its decimal digits; `repr` of a `float` whose value is
an integer ends in `.0`, and for a non-negative value that is an exact
multiple of one tenth (the only other case occurring in the script: `83.5`)
it prints one fractional digit.  (Floats needing more repr digits do not
occur in the table.) -/
def PyNum.str : PyNum → String
  | .int n => toString n
  | .float q =>
      if q.den = 1 then toString q.num ++ ".0"
      else toString (q.num / (q.den : Int)) ++ "." ++ toString ((q.num * 10 / (q.den : Int)) % 10)

/-- The Python `float` literal `83.5`, which is exactly representable in
binary floating point: the rational `167/2` in reduced form. -/
def float83_5 : ℚ := ⟨167, 2, by decide, by decide⟩

/-- `ios_sizes` — the fixed ExportSpec table of `(base_size, scale)` pairs. -/
def ios_sizes : List (PyNum × Int) :=
  [(.int 20, 1), (.int 20, 2), (.int 20, 3),
   (.int 29, 1), (.int 29, 2), (.int 29, 3),
   (.int 40, 1), (.int 40, 2), (.int 40, 3),
   (.int 60, 2), (.int 60, 3),
   (.int 76, 1), (.int 76, 2),
   (.float float83_5, 2),
   (.int 1024, 1)]

/-- `size = int(base_size * scale)` for one table entry: `int * int` is exact
integer multiplication and `int()` is the identity on it; `float * int` is
exact for every product in the table (integral values far below `2^53`), and
`int()` truncates the float toward zero, i.e. `tdiv` of the exact numerator
by the denominator. -/
def entryPixelSize (e : PyNum × Int) : Int :=
  match e.1 with
  | .int n => n * e.2
  | .float q => (q.num * e.2).tdiv (q.den : Int)

/-- `filename = f"icon-{base_size}@{scale}x.png"`. -/
def entryFilename (e : PyNum × Int) : String :=
  "icon-" ++ e.1.str ++ "@" ++ toString e.2 ++ "x.png"

/-- The idiom classification of one entry:
`"iphone" if base_size in [20, 29, 40, 60] else "ipad" if base_size in
[76, 83.5] else "ios-marketing"`. -/
def entryIdiom (e : PyNum × Int) : String :=
  if [PyNum.int 20, .int 29, .int 40, .int 60].any e.1.numEq then "iphone"
  else if [PyNum.int 76, .float float83_5].any e.1.numEq then "ipad"
  else "ios-marketing"

/-- One descriptor appended to `contents["images"]`: the dict
`{"filename": ..., "idiom": ..., "scale": f"{scale}x",
"size": f"{base_size}x{base_size}"}` with its fixed key set. -/
structure ImageEntry where
  filename : String
  idiom : String
  scale : String
  size : String
deriving DecidableEq

/-- The manifest entry built for one table entry. -/
def entryDescriptor (e : PyNum × Int) : ImageEntry :=
  { filename := entryFilename e
    idiom := entryIdiom e
    scale := toString e.2 ++ "x"
    size := e.1.str ++ "x" ++ e.1.str }

/-- The fixed `info` metadata block of the manifest. -/
structure InfoBlock where
  author : String
  version : Int
deriving DecidableEq

/-- The manifest document `contents`. -/
structure ContentsJson where
  images : List ImageEntry
  info : InfoBlock
deriving DecidableEq

/-- The content of one written file: a saved PNG image, or the serialized
manifest (kept structurally — `json.dump` serializes this structure
deterministically, preserving the list order and insertion order of keys). -/
inductive FileContent where
  | png (img : PILImage)
  | json (c : ContentsJson)

/-- Whether a file write carries image data (`*.png`). -/
def FileContent.isPng : FileContent → Bool
  | .png _ => true
  | .json _ => false

/-- `icon.resize((size, size), Image.Resampling.LANCZOS)`: the result has
exactly the requested dimensions.  Only the dimensions of the resampled image
are specified by the claims; the pixel buffer here is a plain scaled sampling
of the source, standing in for the LANCZOS kernel, which operates on the same
source pixels and the same output grid. -/
def PILImage.resize (img : PILImage) (w h : Int) : PILImage :=
  ⟨img.mode, w, h, fun x y =>
    img.pixels (if w = 0 then 0 else x * img.width / w)
               (if h = 0 then 0 else y * img.height / h)⟩

/-- The running state of the export loop: the files written so far (in
order) and the manifest entry list built so far. -/
structure ExportState where
  writes : List (String × FileContent)
  images : List ImageEntry

/-- The file write one loop iteration performs:
`create_icon(1024).resize((size, size), LANCZOS)` saved under
`app-store/AppIcon.appiconset/<filename>`. -/
def variantWrite (e : PyNum × Int) : String × FileContent :=
  ("app-store/AppIcon.appiconset/" ++ entryFilename e,
   .png ((createIconImage 1024).resize (entryPixelSize e) (entryPixelSize e)))

/-- One iteration of the `for base_size, scale in ios_sizes:` loop:
render `create_icon(1024)`, resize to `(size, size)`, save it under
`app-store/AppIcon.appiconset/<filename>`, and append the descriptor. -/
def exportStep (st : ExportState) (e : PyNum × Int) : ExportState :=
  { writes := st.writes ++ [variantWrite e]
    images := st.images ++ [entryDescriptor e] }

/-- The state after the loop.  Before the loop, `__main__` has already saved
the primary `create_icon(1024)` render as `app-store/icon-1024.png`, and the
manifest entry list starts empty. -/
def finalExportState : ExportState :=
  ios_sizes.foldl exportStep
    ⟨[("app-store/icon-1024.png", .png (createIconImage 1024))], []⟩

/-- The manifest document as finally serialized: the accumulated entry list
plus `{"author": "xcode", "version": 1}`. -/
def mainContents : ContentsJson :=
  ⟨finalExportState.images, ⟨"xcode", 1⟩⟩

/-- Every file write `__main__` performs, in order: the primary render, the
fifteen variants, then `app-store/AppIcon.appiconset/Contents.json`. -/
def mainWrites : List (String × FileContent) :=
  finalExportState.writes ++
    [("app-store/AppIcon.appiconset/Contents.json", .json mainContents)]

/-- A filesystem, as far as the script touches it: a map from path to file
content (directory creation by `os.makedirs` is not a file write). -/
def FS := String → Option FileContent

/-- Perform a list of file writes on a filesystem, in order; a later write to
the same path overwrites an earlier one. -/
def applyWrites (ws : List (String × FileContent)) (fs : FS) : FS :=
  ws.foldl (fun g w => fun p => if p = w.1 then some w.2 else g p) fs

/-- Running the script transforms the filesystem by performing its writes. -/
def runMain (fs : FS) : FS :=
  applyWrites mainWrites fs

/-- The role of a drawing call within `create_icon`: a bond line, an outer
(accent-filled) disk, or an inner (background-filled, "punched") disk. -/
inductive OpKind where
  | bondLine
  | outerDisk
  | innerDisk
deriving DecidableEq

/-- Classify a drawing call by its constructor and fill color: the only
background-filled draws `create_icon` issues are the punched inner disks. -/
def DrawOp.kind : DrawOp → OpKind
  | .line .. => .bondLine
  | .ellipse _ _ _ _ f => if f = accentColor then .outerDisk else .innerDisk

/-- The sequence of operation kinds `create_icon` issues, independent of
`size`: seven bond lines, then six outer disks, then six inner disks. -/
def kindList : List OpKind :=
  List.replicate 7 .bondLine ++ (List.replicate 6 .outerDisk ++ List.replicate 6 .innerDisk)

/-!
## Helper lemmas
-/

theorem get_map_kind : ∀ (l : List DrawOp) (i : ℕ) (h : i < l.length)
    (h2 : i < (l.map DrawOp.kind).length),
    (l.map DrawOp.kind).get ⟨i, h2⟩ = (l.get ⟨i, h⟩).kind := by
  intro l
  induction l with
  | nil => intro i h h2; exact absurd h (Nat.not_lt_zero i)
  | cons a l ih =>
      intro i h h2
      cases i with
      | zero => rfl
      | succ n => exact ih n (Nat.lt_of_succ_lt_succ h) (Nat.lt_of_succ_lt_succ h2)

theorem foldl_exportStep (l : List (PyNum × Int)) (st : ExportState) :
    (l.foldl exportStep st).writes = st.writes ++ l.map variantWrite ∧
    (l.foldl exportStep st).images = st.images ++ l.map entryDescriptor := by
  induction l generalizing st with
  | nil => simp
  | cons e l ih =>
      rcases ih (exportStep st e) with ⟨hw, hi⟩
      refine ⟨?_, ?_⟩
      · rw [List.foldl_cons, hw]
        simp [exportStep]
      · rw [List.foldl_cons, hi]
        simp [exportStep]

theorem mainWrites_eq :
    mainWrites = ("app-store/icon-1024.png", .png (createIconImage 1024)) ::
      (ios_sizes.map variantWrite ++
        [("app-store/AppIcon.appiconset/Contents.json", .json mainContents)]) := by
  show (finalExportState.writes ++ _) = _
  rw [show finalExportState = ios_sizes.foldl exportStep
        ⟨[("app-store/icon-1024.png", .png (createIconImage 1024))], []⟩ from rfl,
      (foldl_exportStep _ _).1]
  simp

theorem mainImages_eq : mainContents.images = ios_sizes.map entryDescriptor := by
  show finalExportState.images = _
  rw [show finalExportState = ios_sizes.foldl exportStep
        ⟨[("app-store/icon-1024.png", .png (createIconImage 1024))], []⟩ from rfl,
      (foldl_exportStep _ _).2]
  simp

theorem applyWrites_not_mem (ws : List (String × FileContent)) (fs : FS) (p : String)
    (h : p ∉ ws.map Prod.fst) : applyWrites ws fs p = fs p := by
  induction ws generalizing fs with
  | nil => rfl
  | cons w ws ih =>
      rw [List.map_cons, List.mem_cons] at h
      push_neg at h
      have step : applyWrites (w :: ws) fs =
          applyWrites ws (fun q => if q = w.1 then some w.2 else fs q) := rfl
      rw [step, ih _ h.2]
      exact if_neg h.1

theorem applyWrites_mem (ws : List (String × FileContent)) (fs fs' : FS) (p : String)
    (h : p ∈ ws.map Prod.fst) : applyWrites ws fs p = applyWrites ws fs' p := by
  induction ws generalizing fs fs' with
  | nil => simp at h
  | cons w ws ih =>
      by_cases hp : p ∈ ws.map Prod.fst
      · exact ih _ _ hp
      · have hpw : p = w.1 := by
          rw [List.map_cons, List.mem_cons] at h
          exact h.resolve_right hp
        have step : ∀ g : FS, applyWrites (w :: ws) g =
            applyWrites ws (fun q => if q = w.1 then some w.2 else g q) := fun _ => rfl
        rw [step fs, step fs', applyWrites_not_mem _ _ _ hp, applyWrites_not_mem _ _ _ hp,
            if_pos hpw, if_pos hpw]

theorem applyWrites_append_single (ws : List (String × FileContent))
    (w : String × FileContent) (fs : FS) :
    applyWrites (ws ++ [w]) fs = fun p => if p = w.1 then some w.2 else applyWrites ws fs p := by
  show (ws ++ [w]).foldl _ fs = _
  rw [List.foldl_append]
  rfl

theorem runMain_manifest (fs : FS) :
    runMain fs "app-store/AppIcon.appiconset/Contents.json" =
      some (FileContent.json mainContents) := by
  show applyWrites (finalExportState.writes ++ _) fs _ = _
  rw [applyWrites_append_single]
  simp

theorem foldl_applyOp_colors (ops : List DrawOp)
    (hops : ∀ op ∈ ops, op.fill = bgColor ∨ op.fill = accentColor) :
    ∀ px : Int → Int → Color,
      (∀ x y, px x y = bgColor ∨ px x y = accentColor) →
      ∀ x y, (ops.foldl applyOp px) x y = bgColor ∨ (ops.foldl applyOp px) x y = accentColor := by
  induction ops with
  | nil => intro px hpx x y; exact hpx x y
  | cons op ops ih =>
      intro px hpx x y
      rw [List.foldl_cons]
      refine ih (fun o ho => hops o (List.mem_cons_of_mem _ ho)) _ ?_ x y
      intro a b
      simp only [applyOp]
      by_cases hc : op.covers a b
      · rw [if_pos hc]
        exact hops op (List.mem_cons_self op ops)
      · rw [if_neg hc]
        exact hpx a b

theorem createIconOps_fill (size : Int) :
    ∀ op ∈ createIconOps size, op.fill = bgColor ∨ op.fill = accentColor := by
  intro op hop
  simp only [createIconOps, List.mem_append, List.mem_map] at hop
  rcases hop with (⟨b, _, rfl⟩ | ⟨c, _, rfl⟩) | ⟨c, _, rfl⟩
  · exact Or.inr rfl
  · exact Or.inr rfl
  · exact Or.inl rfl

theorem float83_5_eq : float83_5 = (167 : ℚ) / 2 := by
  rw [← Rat.num_div_den float83_5]
  show ((167 : ℤ) : ℚ) / ((2 : ℕ) : ℚ) = (167 : ℚ) / 2
  norm_num

theorem entry_value_eq :
    ∀ e ∈ ios_sizes, e.1.toRat * ((e.2 : ℤ) : ℚ) = ((entryPixelSize e : ℤ) : ℚ) := by
  intro e he
  fin_cases he <;>
    first
      | (norm_num [entryPixelSize, PyNum.toRat]; done)
      | (rw [show entryPixelSize (PyNum.float float83_5, 2) = (167 : ℤ) from by decide]
         show float83_5 * ((2 : ℤ) : ℚ) = ((167 : ℤ) : ℚ)
         rw [float83_5_eq]
         norm_num)

theorem imageNew_ok (mode : String) (w h : Int) (c : Color) (hw : ¬(w < 0 ∨ h < 0)) :
    imageNew mode w h c = .ok ⟨mode, w, h, fun _ _ => c⟩ := by
  unfold imageNew
  rw [if_neg hw]

theorem create_icon_ok (S : Int) (h : 0 ≤ S) :
    create_icon S = Except.ok (createIconImage S) := by
  show (imageNew "RGB" S S bgColor).map _ = _
  rw [imageNew_ok "RGB" S S bgColor (by omega)]
  rfl

/-!
## The claims
-/

/-- C1: for every entry `(nominalSize, scaleMultiplier)` in the fixed
`ios_sizes` table of 15 entries, the pixel size of the written variant image
(both width and height) equals `round(nominalSize × scaleMultiplier)` under
standard rounding (every product in the table is integral, so the truncation
the code performs agrees with rounding); in particular the `(83.5, 2)` entry
produces a 167×167 image. -/
theorem variant_size_round (e : PyNum × Int) (he : e ∈ ios_sizes) :
    entryPixelSize e = round (e.1.toRat * (e.2 : ℚ)) ∧
    (∃ img, ("app-store/AppIcon.appiconset/" ++ entryFilename e, FileContent.png img) ∈ mainWrites ∧
      img.width = entryPixelSize e ∧ img.height = entryPixelSize e) ∧
    entryPixelSize (PyNum.float float83_5, 2) = 167 := by
  refine ⟨?_, ⟨(createIconImage 1024).resize (entryPixelSize e) (entryPixelSize e), ?_, rfl, rfl⟩,
    by decide⟩
  · rw [entry_value_eq e he, round_intCast]
  · rw [mainWrites_eq]
    exact List.mem_cons_of_mem _ (List.mem_append_left _ (List.mem_map_of_mem _ he))

/-- C1 witness: the `(83.5, 2)` entry, whose written variant is 167×167. -/
theorem variant_size_round_witness :
    entryPixelSize (PyNum.float float83_5, 2) = round ((PyNum.float float83_5).toRat * ((2 : Int) : ℚ)) ∧
    (∃ img, ("app-store/AppIcon.appiconset/" ++ entryFilename (PyNum.float float83_5, 2),
        FileContent.png img) ∈ mainWrites ∧
      img.width = 167 ∧ img.height = 167) ∧
    entryPixelSize (PyNum.float float83_5, 2) = 167 :=
  variant_size_round (PyNum.float float83_5, 2) (by decide)

/-- C2 (amended): `create_icon` fails with Pillow's invalid-argument
`ValueError` exactly for negative sizes; `size = 0` is accepted (Pillow
allows zero-sized images and the function body performs no validation of its
own), and every size `≥ 0` succeeds. -/
theorem create_icon_error_iff_neg (size : Int) :
    (create_icon size = Except.error "Width and height must be >= 0" ↔ size < 0) ∧
    (0 ≤ size → create_icon size = Except.ok (createIconImage size)) := by
  constructor
  · constructor
    · intro h
      by_contra hn
      push_neg at hn
      rw [create_icon_ok size hn] at h
      exact Except.noConfusion h
    · intro h
      show (imageNew "RGB" size size bgColor).map _ = _
      rw [show imageNew "RGB" size size bgColor = .error "Width and height must be >= 0" from by
        unfold imageNew
        rw [if_pos (Or.inl h)]]
      rfl
  · exact create_icon_ok size

/-- C2 witness: `create_icon(-1)` raises the `ValueError` and `create_icon(5)`
returns an image. -/
theorem create_icon_error_iff_neg_witness :
    create_icon (-1) = Except.error "Width and height must be >= 0" ∧
    create_icon 5 = Except.ok (createIconImage 5) :=
  ⟨(create_icon_error_iff_neg (-1)).1.mpr (by decide),
   (create_icon_error_iff_neg 5).2 (by decide)⟩

/-- C2 counterexample: `0 ≤ 0`, yet `create_icon(0)` does not fail — it
returns a 0×0 image, refuting "for every integer size ≤ 0, create_icon fails
with an invalid-argument error". -/
theorem create_icon_zero_not_error :
    (0 : Int) ≤ 0 ∧ create_icon 0 = Except.ok (createIconImage 0) :=
  ⟨le_refl 0, rfl⟩

/-- C3: the manifest has exactly one entry per `ios_sizes` entry (15 of
them) in table order, the entry filenames are pairwise distinct, every
entry's filename names a variant image file the export wrote, and the export
writes exactly `len(ios_sizes) + 1` image files plus exactly one manifest
file. -/
theorem manifest_matches_export :
    ios_sizes.length = 15 ∧
    mainContents.images = ios_sizes.map entryDescriptor ∧
    mainContents.images.Pairwise (fun a b => a.filename ≠ b.filename) ∧
    (∀ entry ∈ mainContents.images, ∃ img,
      ("app-store/AppIcon.appiconset/" ++ entry.filename, FileContent.png img) ∈ mainWrites) ∧
    mainWrites.countP (fun w => w.2.isPng) = ios_sizes.length + 1 ∧
    mainWrites.countP (fun w => !w.2.isPng) = 1 := by
  refine ⟨rfl, mainImages_eq, by decide, ?_, by decide, by decide⟩
  intro entry hentry
  rw [mainImages_eq] at hentry
  obtain ⟨e, he, rfl⟩ := List.mem_map.mp hentry
  refine ⟨(createIconImage 1024).resize (entryPixelSize e) (entryPixelSize e), ?_⟩
  rw [mainWrites_eq]
  exact List.mem_cons_of_mem _ (List.mem_append_left _ (List.mem_map_of_mem _ he))

/-- C3 witness: the first manifest entry's filename names a written file. -/
theorem manifest_matches_export_witness :
    ∃ img, ("app-store/AppIcon.appiconset/" ++ (entryDescriptor (PyNum.int 20, 1)).filename,
      FileContent.png img) ∈ mainWrites :=
  manifest_matches_export.2.2.2.1 (entryDescriptor (PyNum.int 20, 1)) (by decide)

/-- C4: for every table entry, the idiom tag is `"iphone"` when the nominal
size is one of 20, 29, 40, 60; `"ipad"` when it is 76 or 83.5
(`float83_5`); and `"ios-marketing"` for any other nominal size in the
table (only 1024). -/
theorem idiom_table (e : PyNum × Int) (he : e ∈ ios_sizes) :
    (e.1.toRat ∈ ([20, 29, 40, 60] : List ℚ) → entryIdiom e = "iphone") ∧
    (e.1.toRat ∈ ([76, float83_5] : List ℚ) → entryIdiom e = "ipad") ∧
    (e.1.toRat ∉ ([20, 29, 40, 60, 76, float83_5] : List ℚ) → entryIdiom e = "ios-marketing") := by
  revert e he
  decide

/-- C4 witness: one entry from each idiom class. -/
theorem idiom_table_witness :
    entryIdiom (PyNum.int 20, 1) = "iphone" ∧
    entryIdiom (PyNum.float float83_5, 2) = "ipad" ∧
    entryIdiom (PyNum.int 1024, 1) = "ios-marketing" :=
  ⟨(idiom_table (PyNum.int 20, 1) (by decide)).1 (by decide),
   (idiom_table (PyNum.float float83_5, 2) (by decide)).2.1 (by decide),
   (idiom_table (PyNum.int 1024, 1) (by decide)).2.2 (by decide)⟩

/-- C5: the `(60, 3)` entry produces a 180×180 image file and the manifest
descriptor `{"filename": "icon-60@3x.png", "idiom": "iphone", "scale": "3x",
"size": "60x60"}`. -/
theorem entry60x3_scenario :
    (PyNum.int 60, 3) ∈ ios_sizes ∧
    entryDescriptor (PyNum.int 60, 3) =
      { filename := "icon-60@3x.png", idiom := "iphone", scale := "3x", size := "60x60" } ∧
    entryDescriptor (PyNum.int 60, 3) ∈ mainContents.images ∧
    entryFilename (PyNum.int 60, 3) = "icon-60@3x.png" ∧
    (∃ img, ("app-store/AppIcon.appiconset/" ++ entryFilename (PyNum.int 60, 3),
        FileContent.png img) ∈ mainWrites ∧
      img.width = 180 ∧ img.height = 180) := by
  refine ⟨by decide, by decide, by decide, by decide,
    ⟨(createIconImage 1024).resize 180 180, ?_, rfl, rfl⟩⟩
  rw [mainWrites_eq]
  exact List.mem_cons_of_mem _ (List.mem_append_left _
    (List.mem_map_of_mem _ (by decide : (PyNum.int 60, (3 : Int)) ∈ ios_sizes)))

/-- C6: for every positive size `S`, `create_icon(S)` returns an RGB image
whose width and height both equal `S`. -/
theorem render_dims (S : Int) (h : 0 < S) :
    ∃ img, create_icon S = Except.ok img ∧
      img.mode = "RGB" ∧ img.width = S ∧ img.height = S :=
  ⟨createIconImage S, create_icon_ok S h.le, rfl, rfl, rfl⟩

/-- C6 witness: `create_icon(3)` is a 3×3 RGB image. -/
theorem render_dims_witness :
    ∃ img, create_icon 3 = Except.ok img ∧
      img.mode = "RGB" ∧ img.width = 3 ∧ img.height = 3 :=
  render_dims 3 (by decide)

/-- C7: rendering and export are deterministic — `create_icon` is a pure
function of its size (two calls agree), every file the script writes has
content independent of the prior filesystem state, and re-running the export
leaves the same manifest content, namely `mainContents`, both times. -/
theorem export_manifest_deterministic :
    (∀ S : Int, create_icon S = create_icon S) ∧
    (∀ fs fs' : FS, ∀ p, p ∈ mainWrites.map Prod.fst → runMain fs p = runMain fs' p) ∧
    (∀ fs : FS,
      runMain (runMain fs) "app-store/AppIcon.appiconset/Contents.json" =
        runMain fs "app-store/AppIcon.appiconset/Contents.json" ∧
      runMain fs "app-store/AppIcon.appiconset/Contents.json" =
        some (FileContent.json mainContents)) := by
  refine ⟨fun _ => rfl, fun fs fs' p hp => applyWrites_mem _ _ _ _ hp, fun fs => ⟨?_, runMain_manifest fs⟩⟩
  rw [runMain_manifest, runMain_manifest]

/-- C7 witness: the primary icon path gets the same content whether the
filesystem started empty or full. -/
theorem export_manifest_deterministic_witness :
    runMain (fun _ => none) "app-store/icon-1024.png" =
      runMain (fun _ => some (FileContent.json mainContents)) "app-store/icon-1024.png" :=
  export_manifest_deterministic.2.1 (fun _ => none)
    (fun _ => some (FileContent.json mainContents)) "app-store/icon-1024.png" (by decide)

/-- C8: in every call of `create_icon` the drawing operations occur in three
strictly separated phases — if position `i` holds an outer disk and position
`j` a bond line then `j < i`, and if position `i` holds an inner
(background-colored) disk and position `j` an outer disk then `j < i`. -/
theorem draw_order (size : Int) (i j : ℕ)
    (hi : i < (createIconOps size).length) (hj : j < (createIconOps size).length) :
    (((createIconOps size).get ⟨i, hi⟩).kind = OpKind.outerDisk →
      ((createIconOps size).get ⟨j, hj⟩).kind = OpKind.bondLine → j < i) ∧
    (((createIconOps size).get ⟨i, hi⟩).kind = OpKind.innerDisk →
      ((createIconOps size).get ⟨j, hj⟩).kind = OpKind.outerDisk → j < i) := by
  have hlen : (createIconOps size).length = kindList.length := rfl
  have hmi : i < ((createIconOps size).map DrawOp.kind).length := by
    rw [List.length_map]; exact hi
  have hmj : j < ((createIconOps size).map DrawOp.kind).length := by
    rw [List.length_map]; exact hj
  have hgi : ((createIconOps size).get ⟨i, hi⟩).kind = kindList.get ⟨i, hlen ▸ hi⟩ := by
    rw [← get_map_kind _ _ hi hmi]
    exact List.get_of_eq (rfl : (createIconOps size).map DrawOp.kind = kindList) _
  have hgj : ((createIconOps size).get ⟨j, hj⟩).kind = kindList.get ⟨j, hlen ▸ hj⟩ := by
    rw [← get_map_kind _ _ hj hmj]
    exact List.get_of_eq (rfl : (createIconOps size).map DrawOp.kind = kindList) _
  rw [hgi, hgj]
  have main : ∀ a b : Fin kindList.length,
      (kindList.get a = OpKind.outerDisk → kindList.get b = OpKind.bondLine → b.val < a.val) ∧
      (kindList.get a = OpKind.innerDisk → kindList.get b = OpKind.outerDisk → b.val < a.val) := by
    decide
  exact main ⟨i, hlen ▸ hi⟩ ⟨j, hlen ▸ hj⟩

/-- C8 witness: at size 1024, operation 7 is an outer disk drawn after bond
line 0, and operation 13 is an inner disk drawn after outer disk 7. -/
theorem draw_order_witness :
    ((0 : ℕ) < 7 ∧ (7 : ℕ) < 13) ∧ (createIconOps 1024).length = 19 :=
  ⟨⟨(draw_order 1024 7 0 (by decide) (by decide)).1 rfl rfl,
    (draw_order 1024 13 7 (by decide) (by decide)).2 rfl rfl⟩, rfl⟩

/-- C9: for every positive size, every pixel of the rendered image has one of
exactly two colors — the background `#0f172a` or the accent `#22d3a8` —
since every draw operation writes one of those two solid fills and the
drawing primitives introduce no anti-aliased intermediate colors. -/
theorem render_two_colors (S : Int) (h : 0 < S) (x y : Int) :
    ∃ img, create_icon S = Except.ok img ∧
      (img.pixels x y = bgColor ∨ img.pixels x y = accentColor) :=
  ⟨createIconImage S, create_icon_ok S h.le,
    foldl_applyOp_colors _ (createIconOps_fill S) _ (fun _ _ => Or.inl rfl) x y⟩

/-- C9 witness: the corner pixel of `create_icon(1)` is one of the two
colors. -/
theorem render_two_colors_witness :
    ∃ img, create_icon 1 = Except.ok img ∧
      (img.pixels 0 0 = bgColor ∨ img.pixels 0 0 = accentColor) :=
  render_two_colors 1 (by decide) 0 0

/-- C10: the filename and size label reproduce the nominal size in its
literal Python form — the `(83.5, 2)` entry gets filename
`"icon-83.5@2x.png"` and size label `"83.5x83.5"`, while integer nominal
sizes get integer-formatted names such as `"icon-20@2x.png"` and
`"20x20"`. -/
theorem filename_decimal_format :
    entryFilename (PyNum.float float83_5, 2) = "icon-83.5@2x.png" ∧
    (entryDescriptor (PyNum.float float83_5, 2)).size = "83.5x83.5" ∧
    entryFilename (PyNum.int 20, 2) = "icon-20@2x.png" ∧
    (entryDescriptor (PyNum.int 20, 2)).size = "20x20" ∧
    (PyNum.float float83_5, 2) ∈ ios_sizes ∧ (PyNum.int 20, 2) ∈ ios_sizes := by
  decide
